import Mathlib

/-!
# Verification of the cat-mouse pursuit simulation

Shallow embedding of the pursuit-and-detection core of the cat-mouse
simulation (a JavaScript browser program).  JavaScript numbers are modelled
as real numbers, `Math.sqrt` as `Real.sqrt`, the in-place mutating methods
of `Vector2D` as pure functions returning the new value, and nullable
object references as `Option`.  Boolean-returning JS checks over reals are
modelled as propositions.  Each definition is annotated with the source
file and the lines it was translated from.
-/

noncomputable section

/-- Source `Vector2D` (src/js/utils/Vector2D.js): a 2D vector with real components. -/
@[ext]
structure Vec2 where
  x : ℝ
  y : ℝ

namespace Vec2

/-- Source `Vector2D.add` (Vector2D.js lines 54-58). -/
def add (v w : Vec2) : Vec2 := ⟨v.x + w.x, v.y + w.y⟩

/-- Source `Vector2D.subtract` (Vector2D.js lines 65-69); also the static
`Vector2D.subtract` (lines 260-262), which computes the same components. -/
def subtract (v w : Vec2) : Vec2 := ⟨v.x - w.x, v.y - w.y⟩

/-- Source `Vector2D.multiply` (Vector2D.js lines 76-80): scalar multiplication. -/
def multiply (v : Vec2) (scalar : ℝ) : Vec2 := ⟨v.x * scalar, v.y * scalar⟩

/-- Source `Vector2D.divide` (Vector2D.js lines 87-93): component division guarded
by `scalar !== 0`; dividing by zero is a no-op. -/
def divide (v : Vec2) (scalar : ℝ) : Vec2 :=
  if scalar ≠ 0 then ⟨v.x / scalar, v.y / scalar⟩ else v

/-- Source `Vector2D.magnitude` (Vector2D.js lines 99-101). -/
def magnitude (v : Vec2) : ℝ := Real.sqrt (v.x * v.x + v.y * v.y)

/-- Source `Vector2D.magnitudeSquared` (Vector2D.js lines 107-109). -/
def magnitudeSquared (v : Vec2) : ℝ := v.x * v.x + v.y * v.y

/-- Source `Vector2D.normalize` (Vector2D.js lines 115-121): divide by the
magnitude when it is positive, otherwise leave the vector unchanged. -/
def normalize (v : Vec2) : Vec2 :=
  if v.magnitude > 0 then v.divide v.magnitude else v

/-- Source `Vector2D.setMagnitude` (Vector2D.js lines 128-130):
`normalize().multiply(mag)`. -/
def setMagnitude (v : Vec2) (mag : ℝ) : Vec2 := (v.normalize).multiply mag

/-- Source `Vector2D.limit` (Vector2D.js lines 137-143): clamp the magnitude to
`max`, comparing squared magnitudes. -/
def limit (v : Vec2) (max : ℝ) : Vec2 :=
  if v.magnitudeSquared > max * max then (v.normalize).multiply max else v

/-- Source `Vector2D.distanceTo` (Vector2D.js lines 150-154). -/
def distanceTo (v w : Vec2) : ℝ :=
  Real.sqrt ((w.x - v.x) * (w.x - v.x) + (w.y - v.y) * (w.y - v.y))

/-- The zero vector `new Vector2D(0, 0)`. -/
def zero : Vec2 := ⟨0, 0⟩

lemma magnitudeSquared_nonneg (v : Vec2) : 0 ≤ v.magnitudeSquared := by
  unfold magnitudeSquared
  nlinarith [mul_self_nonneg v.x, mul_self_nonneg v.y]

lemma magnitude_nonneg (v : Vec2) : 0 ≤ v.magnitude :=
  Real.sqrt_nonneg _

lemma magnitude_sq (v : Vec2) : v.magnitude * v.magnitude = v.magnitudeSquared :=
  Real.mul_self_sqrt v.magnitudeSquared_nonneg

lemma magnitude_eq_zero_iff (v : Vec2) : v.magnitude = 0 ↔ v = zero := by
  unfold magnitude
  rw [show v.x * v.x + v.y * v.y = v.x ^ 2 + v.y ^ 2 by ring]
  constructor
  · intro h
    have h0 : v.x ^ 2 + v.y ^ 2 = 0 := by
      have hle := Real.sqrt_eq_zero'.mp h
      have hge : (0 : ℝ) ≤ v.x ^ 2 + v.y ^ 2 := by positivity
      linarith
    have hx : v.x = 0 := by nlinarith [sq_nonneg v.x, sq_nonneg v.y]
    have hy : v.y = 0 := by nlinarith [sq_nonneg v.x, sq_nonneg v.y]
    exact Vec2.ext hx hy
  · rintro rfl
    simp [zero]

lemma magnitude_pos_of_ne_zero {v : Vec2} (h : v ≠ zero) : 0 < v.magnitude := by
  rcases lt_or_eq_of_le v.magnitude_nonneg with h' | h'
  · exact h'
  · exact absurd (v.magnitude_eq_zero_iff.mp h'.symm) h

lemma magnitude_multiply (v : Vec2) (k : ℝ) :
    (v.multiply k).magnitude = |k| * v.magnitude := by
  unfold multiply magnitude
  rw [show v.x * k * (v.x * k) + v.y * k * (v.y * k)
        = k ^ 2 * (v.x * v.x + v.y * v.y) by ring,
    Real.sqrt_mul (sq_nonneg k), Real.sqrt_sq_eq_abs]

lemma magnitude_normalize {v : Vec2} (h : v ≠ zero) :
    v.normalize.magnitude = 1 := by
  have hm : 0 < v.magnitude := magnitude_pos_of_ne_zero h
  unfold normalize
  rw [if_pos hm]
  unfold divide
  rw [if_pos (ne_of_gt hm)]
  show Real.sqrt _ = 1
  have hsq : v.x / v.magnitude * (v.x / v.magnitude)
      + v.y / v.magnitude * (v.y / v.magnitude)
      = (v.x * v.x + v.y * v.y) / (v.magnitude * v.magnitude) := by
    field_simp
  rw [hsq, magnitude_sq]
  unfold magnitudeSquared
  rcases eq_or_lt_of_le (v.magnitudeSquared_nonneg) with h0 | h0
  · exfalso
    have : v.magnitude = 0 := by
      unfold magnitude
      rw [show v.x * v.x + v.y * v.y = v.magnitudeSquared from rfl, ← h0,
        Real.sqrt_zero]
    exact absurd this (ne_of_gt hm)
  · rw [div_self (ne_of_gt (by simpa [magnitudeSquared] using h0)), Real.sqrt_one]

lemma normalize_zero_vec : (zero : Vec2).normalize = zero := by
  unfold normalize magnitude zero
  norm_num

lemma magnitude_setMagnitude {v : Vec2} (h : v ≠ zero) (m : ℝ) :
    (v.setMagnitude m).magnitude = |m| := by
  unfold setMagnitude
  rw [magnitude_multiply, magnitude_normalize h, mul_one]

lemma setMagnitude_ne_zero {v : Vec2} (h : v ≠ zero) {m : ℝ} (hm : 0 < m) :
    v.setMagnitude m ≠ zero := by
  intro hz
  have := magnitude_setMagnitude h m
  rw [hz] at this
  have h0 : (zero : Vec2).magnitude = 0 := by unfold magnitude zero; norm_num
  rw [h0] at this
  rw [abs_of_pos hm] at this
  exact absurd this.symm (ne_of_gt hm)

lemma magnitude_zero_vec : (zero : Vec2).magnitude = 0 := by
  unfold magnitude zero; norm_num

lemma limit_of_le {v : Vec2} {max : ℝ} (h : v.magnitudeSquared ≤ max * max) :
    v.limit max = v := by
  unfold limit
  rw [if_neg (not_lt.mpr h)]

lemma magnitude_limit_of_gt {v : Vec2} {max : ℝ} (hmax : 0 ≤ max)
    (h : v.magnitudeSquared > max * max) : (v.limit max).magnitude = max := by
  have hpos : 0 < v.magnitudeSquared := lt_of_le_of_lt (by nlinarith) h
  have hv : v ≠ zero := by
    intro hz
    rw [hz] at hpos
    simp [magnitudeSquared, zero] at hpos
  unfold limit
  rw [if_pos h, magnitude_multiply, magnitude_normalize hv, mul_one,
    abs_of_nonneg hmax]

lemma magnitude_limit_le (v : Vec2) {max : ℝ} (hmax : 0 ≤ max) :
    (v.limit max).magnitude ≤ v.magnitude := by
  by_cases h : v.magnitudeSquared > max * max
  · rw [magnitude_limit_of_gt hmax h]
    have hsq := v.magnitude_sq
    have hnn := v.magnitude_nonneg
    nlinarith
  · rw [limit_of_le (not_lt.mp h)]

lemma limit_idem (v : Vec2) {max : ℝ} (hmax : 0 ≤ max) :
    (v.limit max).limit max = v.limit max := by
  by_cases h : v.magnitudeSquared > max * max
  · apply limit_of_le
    rw [← (v.limit max).magnitude_sq, magnitude_limit_of_gt hmax h]
  · rw [limit_of_le (not_lt.mp h), limit_of_le (not_lt.mp h)]

lemma limit_ne_zero {v : Vec2} {max : ℝ} (hv : v ≠ zero) (hmax : 0 < max) :
    v.limit max ≠ zero := by
  intro hz
  by_cases h : v.magnitudeSquared > max * max
  · have := magnitude_limit_of_gt (le_of_lt hmax) h
    rw [hz, magnitude_zero_vec] at this
    exact absurd this.symm (ne_of_gt hmax)
  · rw [limit_of_le (not_lt.mp h)] at hz
    exact hv hz

end Vec2

namespace MathUtils

/-- Source `MathUtils.clamp` (src/js/utils/MathUtils.js lines 14-16):
`Math.min(Math.max(value, min), max)`. -/
def clamp (value mn mx : ℝ) : ℝ := min (max value mn) mx

/-- Source `MathUtils.map` (src/js/utils/MathUtils.js lines 38-40): linear map of
`value` from the range `[inMin, inMax]` to `[outMin, outMax]`. -/
def map (value inMin inMax outMin outMax : ℝ) : ℝ :=
  ((value - inMin) * (outMax - outMin)) / (inMax - inMin) + outMin

end MathUtils

/- Constants from `CONFIG` (src/unnamed/part_001 contains config.js,
lines 313-423). -/
namespace CONFIG

def canvasWidth : ℝ := 1400
def canvasHeight : ℝ := 900
def captureDistance : ℝ := 60
def boundaryMargin : ℝ := 100
def chaserStartX : ℝ := 700
def chaserStartY : ℝ := 450

end CONFIG

/-- The kinematic state of an `Agent` (src/js/agents/Agent.js).  The visual
fields (color, size, image, trail history) and the bookkeeping fields (id,
createdAt) influence none of the verified behaviour and are omitted;
`updateTrail` only appends to the omitted trail. -/
structure Agent where
  position : Vec2
  velocity : Vec2
  acceleration : Vec2
  maxSpeed : ℝ
  maxForce : ℝ
  mass : ℝ
  active : Bool

namespace Agent

/-- Source `Agent.update` (Agent.js lines 59-76): when active,
`velocity += acceleration`, clamp velocity to `maxSpeed`,
`position += velocity * deltaTime`, reset acceleration via `multiply(0)`;
when inactive, no change. -/
def update (a : Agent) (deltaTime : ℝ) : Agent :=
  if a.active = true then
    let v1 := (a.velocity.add a.acceleration).limit a.maxSpeed
    { a with
      velocity := v1
      position := a.position.add (v1.multiply deltaTime)
      acceleration := a.acceleration.multiply 0 }
  else a

/-- Source `Agent.applyForce` (Agent.js lines 82-86): `acceleration += force / mass`
(computed as `force * (1 / mass)`). -/
def applyForce (a : Agent) (force : Vec2) : Agent :=
  { a with acceleration := a.acceleration.add (force.multiply (1 / a.mass)) }

/-- Source `Agent.distanceTo` (Agent.js lines 242-244). -/
def distanceTo (a other : Agent) : ℝ := a.position.distanceTo other.position

end Agent

namespace Ligeirinho

/-- Source `Ligeirinho.update` (src/unnamed/part_003 lines 89-94): run the base
`Agent.update`, then re-normalize the velocity with
`this.velocity.setMagnitude(this.maxSpeed)`.  The target carries no extra
kinematic state beyond `Agent`. -/
def update (t : Agent) (deltaTime : ℝ) : Agent :=
  let t1 := Agent.update t deltaTime
  { t1 with velocity := t1.velocity.setMagnitude t1.maxSpeed }

/-- Source `Ligeirinho.hasEscaped` (src/unnamed/part_003 lines 103-119): the
boolean `escaped` as a proposition (the method also increments an
`escapeAttempts` counter and logs, neither of which affects the result). -/
def hasEscaped (t : Agent) (canvasWidth canvasHeight margin : ℝ) : Prop :=
  t.position.x < -margin ∨
  t.position.x > canvasWidth + margin ∨
  t.position.y < -margin ∨
  t.position.y > canvasHeight + margin

end Ligeirinho

/-- Source `Frajola` (src/js/agents/Frajola.js): the chaser, an `Agent` plus a
detection flag and a nullable reference to its target.  The statistics
counters (`captureCount`, pursuit times) and `detectionRadius` affect no
verified claim and are omitted. -/
structure Frajola extends Agent where
  targetDetected : Bool
  target : Option Agent

namespace Frajola

/-- Source `Frajola.attemptCapture` (Frajola.js lines 102-122) as a proposition:
returns false when the target reference is missing or `targetDetected` is
false, otherwise true exactly when `distanceTo(target) < captureDistance`
(the method additionally bumps statistics counters on success, which does
not affect the returned boolean). -/
def attemptCapture (c : Frajola) (captureDistance : ℝ) : Prop :=
  match c.target with
  | none => False
  | some t => c.targetDetected = true ∧ c.toAgent.distanceTo t < captureDistance

end Frajola

/-- Source `CollisionDetector.checkCapture` (src/js/systems/CollisionDetector.js
lines 27-46) as a proposition: false when either reference is missing or
the target is inactive, otherwise true exactly when
`chaser.distanceTo(target) < captureDistance` (the detector also records
the collision and logs, which does not affect the returned boolean). -/
def CollisionDetector.checkCapture (chaser : Option Frajola) (target : Option Agent)
    (captureDistance : ℝ) : Prop :=
  match chaser, target with
  | some c, some t => t.active = true ∧ c.toAgent.distanceTo t < captureDistance
  | _, _ => False

/-- Source `Strategy.seek` (src/js/strategies/Strategy.js lines 69-77): desired
velocity toward the target at `maxSpeed`, steering = desired − current
velocity, limited to `maxForce`. -/
def Strategy.seek (currentPos currentVel targetPos : Vec2)
    (maxSpeed maxForce : ℝ) : Vec2 :=
  let desired := ((targetPos.subtract currentPos).normalize).multiply maxSpeed
  let steer := desired.subtract currentVel
  steer.limit maxForce

/-- Source `DirectStrategy` (DirectStrategy.js, listed in src/README.md): only the
`active` flag inherited from `Strategy` affects `calculate`. -/
structure DirectStrategy where
  active : Bool

/-- Source `DirectStrategy.calculate` (DirectStrategy.js lines 27-50 as listed in
src/README.md): `if (!this.active || !target) return new Vector2D(0,0);`
then a plain seek toward the target's current position; `targetDetected`
is only logged. -/
def DirectStrategy.calculate (s : DirectStrategy) (chaser : Frajola)
    (target : Option Agent) (targetDetected : Bool) : Vec2 :=
  match s.active, target with
  | true, some t =>
      Strategy.seek chaser.position chaser.velocity t.position
        chaser.maxSpeed chaser.maxForce
  | _, _ => Vec2.zero

/-- Source `PredictiveStrategy` (src/js/strategies/Strategy.js lines 427-439):
`active` flag, configured `lookahead`, and the `adaptiveLookahead` toggle. -/
structure PredictiveStrategy where
  active : Bool
  lookahead : ℝ
  adaptiveLookahead : Bool

/-- Source `PredictiveStrategy.calculateAdaptiveLookahead` (Strategy.js lines
491-507): map the clamped distance from the range [0, 400] to the
lookahead range [3, 20]. -/
def PredictiveStrategy.calculateAdaptiveLookahead (distance : ℝ) : ℝ :=
  MathUtils.map (MathUtils.clamp distance 0 400) 0 400 3 20

/-- Source `PredictiveStrategy.predictFuturePosition` (Strategy.js lines 515-527):
position + velocity × lookahead, clamped to the canvas rectangle. -/
def PredictiveStrategy.predictFuturePosition (target : Agent) (lookahead : ℝ) : Vec2 :=
  let prediction := target.position.add (target.velocity.multiply lookahead)
  ⟨MathUtils.clamp prediction.x 0 CONFIG.canvasWidth,
   MathUtils.clamp prediction.y 0 CONFIG.canvasHeight⟩

/-- Source `PredictiveStrategy.calculate` (Strategy.js lines 448-484):
`if (!this.active || !target) return new Vector2D(0,0);`, adaptive or fixed
lookahead, predicted position only when detected, then seek. -/
def PredictiveStrategy.calculate (s : PredictiveStrategy) (chaser : Frajola)
    (target : Option Agent) (targetDetected : Bool) : Vec2 :=
  match s.active, target with
  | true, some t =>
      let distance := chaser.toAgent.distanceTo t
      let effectiveLookahead :=
        if s.adaptiveLookahead = true then
          PredictiveStrategy.calculateAdaptiveLookahead distance
        else s.lookahead
      let targetPos :=
        if targetDetected = true then
          PredictiveStrategy.predictFuturePosition t effectiveLookahead
        else t.position
      Strategy.seek chaser.position chaser.velocity targetPos
        chaser.maxSpeed chaser.maxForce
  | _, _ => Vec2.zero

/-- The two phases of the patrol state machine (Strategy.js line 223:
`this.state = 'patrol'; // 'patrol' ou 'pursue'`). -/
inductive PatrolPhase
  | patrol
  | pursue
  deriving DecidableEq

/-- Source `PatrolStrategy` (src/js/strategies/Strategy.js lines 209-227): the
`active` flag plus patrol configuration and the mutable state machine
fields `state` and `patrolTime`. -/
structure PatrolStrategy where
  active : Bool
  patrolSpeed : ℝ
  patrolRadius : ℝ
  angularSpeed : ℝ
  state : PatrolPhase
  patrolTime : ℝ
  centerX : ℝ
  centerY : ℝ

/-- Source `PatrolStrategy.updateState` (Strategy.js lines 267-279): state becomes
`pursue` iff `targetDetected` this frame, else `patrol`. -/
def PatrolStrategy.updateState (s : PatrolStrategy) (targetDetected : Bool) :
    PatrolStrategy :=
  { s with state := if targetDetected = true then PatrolPhase.pursue else PatrolPhase.patrol }

/-- Source `PatrolStrategy.patrolBehavior` (Strategy.js lines 286-301): steer
toward the point at angle `patrolTime * angularSpeed` on the patrol circle,
at speed `maxSpeed * patrolSpeed`, limited to `maxForce`. -/
def PatrolStrategy.patrolBehavior (s : PatrolStrategy) (chaser : Frajola) : Vec2 :=
  let angle := s.patrolTime * s.angularSpeed
  let targetPos : Vec2 := ⟨s.centerX + Real.cos angle * s.patrolRadius,
                           s.centerY + Real.sin angle * s.patrolRadius⟩
  let desired := ((targetPos.subtract chaser.position).normalize).multiply
    (chaser.maxSpeed * s.patrolSpeed)
  (desired.subtract chaser.velocity).limit chaser.maxForce

/-- Source `PatrolStrategy.pursueBehavior` (Strategy.js lines 309-318): plain seek
toward the target's current position. -/
def PatrolStrategy.pursueBehavior (chaser : Frajola) (target : Agent) : Vec2 :=
  Strategy.seek chaser.position chaser.velocity target.position
    chaser.maxSpeed chaser.maxForce

/-- Source `PatrolStrategy.calculate` (Strategy.js lines 236-261): if inactive
return (0,0); run `updateState(targetDetected)`; if a target exists and
(state is pursue or detected) pursue, otherwise patrol and advance
`patrolTime` by 1.  The method mutates `state` and `patrolTime`, so the
model returns the steering together with the updated strategy. -/
def PatrolStrategy.calculate (s : PatrolStrategy) (chaser : Frajola)
    (target : Option Agent) (targetDetected : Bool) : Vec2 × PatrolStrategy :=
  if s.active = true then
    let s1 := s.updateState targetDetected
    match target with
    | some t =>
        if s1.state = PatrolPhase.pursue ∨ targetDetected = true then
          (PatrolStrategy.pursueBehavior chaser t, s1)
        else
          (s1.patrolBehavior chaser, { s1 with patrolTime := s1.patrolTime + 1 })
    | none => (s1.patrolBehavior chaser, { s1 with patrolTime := s1.patrolTime + 1 })
  else (Vec2.zero, s)

/-- Source `PatrolStrategy.resetPatrolTime` (Strategy.js lines 392-395): sets
`patrolTime` back to 0.  This method is never invoked anywhere in the
repository. -/
def PatrolStrategy.resetPatrolTime (s : PatrolStrategy) : PatrolStrategy :=
  { s with patrolTime := 0 }

/-- The three entries of `Simulation.strategies` (src/unnamed/part_001
lines 43-47). -/
inductive StrategyName
  | direct
  | predictive
  | patrol
  deriving DecidableEq

/-- The fields of `Simulation` (src/unnamed/part_001 lines 7-61) that the
pursuit core reads or writes: the two agents, the three strategy objects
constructed once in the constructor, the selected strategy name, the
terminal-outcome latches, and the configured speeds.  Rendering, audio,
stats and UI fields are omitted. -/
structure Simulation where
  ligeirinho : Agent
  frajola : Frajola
  directStrategy : DirectStrategy
  predictiveStrategy : PredictiveStrategy
  patrolStrategy : PatrolStrategy
  currentStrategy : StrategyName
  captureInProgress : Bool
  escapeInProgress : Bool
  targetSpeed : ℝ
  chaserSpeed : ℝ

/-- The outcome of `Ligeirinho.spawnAtRandomEdge` (src/unnamed/part_003
lines 37-83): a random edge position and a normalized velocity scaled to
`maxSpeed`.  The randomness is a parameter of the model. -/
structure Spawn where
  position : Vec2
  velocity : Vec2

/-- A fresh `Ligeirinho` as built by `createAgents` (src/unnamed/part_001
lines 87-88): the `Agent` constructor defaults (Agent.js lines 14-53,
`maxForce` 0.5, `mass` 1, `active` true) followed by `spawnAtRandomEdge`,
whose random result is the `spawn` parameter. -/
def newLigeirinho (speed : ℝ) (spawn : Spawn) : Agent :=
  { position := spawn.position
    velocity := spawn.velocity
    acceleration := Vec2.zero
    maxSpeed := speed
    maxForce := 0.5
    mass := 1
    active := true }

/-- A fresh `Frajola` as built by `createAgents` (src/unnamed/part_001
lines 91-96): constructed at `CONFIG.chaser.startX/startY` (Frajola.js
lines 14-39, `targetDetected` false), then `setTarget` attaches the new
target. -/
def newFrajola (speed : ℝ) (target : Agent) : Frajola :=
  { position := ⟨CONFIG.chaserStartX, CONFIG.chaserStartY⟩
    velocity := Vec2.zero
    acceleration := Vec2.zero
    maxSpeed := speed
    maxForce := 0.5
    mass := 1
    active := true
    targetDetected := false
    target := some target }

/-- Source `Simulation.createAgents` (src/unnamed/part_001 lines 85-99): replace
both agents with freshly constructed ones; no other field is touched. -/
def Simulation.createAgents (sim : Simulation) (spawn : Spawn) : Simulation :=
  let lig := newLigeirinho sim.targetSpeed spawn
  { sim with ligeirinho := lig, frajola := newFrajola sim.chaserSpeed lig }

/-- Source `Simulation.setStrategy` (src/unnamed/part_001 lines 195-208): look up
the strategy object by name, record `currentStrategy`, and attach the
looked-up (shared, pre-existing) strategy object to the chaser via
`frajola.setStrategy`.  In this model the chaser reads its strategy
through the simulation record, so only the name is recorded; the strategy
objects themselves are not modified by this method. -/
def Simulation.setStrategy (sim : Simulation) (name : StrategyName) : Simulation :=
  { sim with currentStrategy := name }

/-- The restart sequence scheduled by `Simulation.handleCapture`
(src/unnamed/part_001 lines 389-411, the `setTimeout` body at lines
405-410): `createAgents(); setStrategy(currentStrategy);
statsTracker.startAttempt(); captureInProgress = false;`.
`startAttempt` only touches statistics.  `handleEscape` (lines 416-437)
runs the same sequence with `escapeInProgress`. -/
def Simulation.handleCaptureRestart (sim : Simulation) (spawn : Spawn) : Simulation :=
  let s1 := sim.createAgents spawn
  let s2 := s1.setStrategy s1.currentStrategy
  { s2 with captureInProgress := false }

/-- The possible terminal resolutions of one `Simulation.update` frame. -/
inductive FrameOutcome
  | capture
  | escape
  | noEvent
  deriving DecidableEq

open Classical in
/-- The terminal-outcome resolution of `Simulation.update`
(src/unnamed/part_001 lines 322-366): if a capture or escape is already in
progress the frame does nothing; otherwise, after the physics updates,
`checkCapture` is evaluated first and, when true, the method returns
before the escape check; only when capture did not fire is `hasEscaped`
evaluated.  `frajola` and `ligeirinho` here are the post-physics agents of
the frame. -/
def Simulation.updateOutcome (captureInProgress escapeInProgress : Bool)
    (frajola : Frajola) (ligeirinho : Agent)
    (captureDistance canvasWidth canvasHeight margin : ℝ) : FrameOutcome :=
  if captureInProgress = true ∨ escapeInProgress = true then
    FrameOutcome.noEvent
  else if CollisionDetector.checkCapture (some frajola) (some ligeirinho) captureDistance then
    FrameOutcome.capture
  else if Ligeirinho.hasEscaped ligeirinho canvasWidth canvasHeight margin then
    FrameOutcome.escape
  else
    FrameOutcome.noEvent

/-! ## Claim theorems -/

/-- C1: the capture check fires iff the target is active and the Euclidean
distance between chaser and target is strictly below `captureDistance`.
The chaser's `targetDetected` flag is quantified on the left and absent on
the right: it has no influence on whether capture fires. -/
theorem checkCapture_iff_active_and_close (c : Frajola) (t : Agent) (cd : ℝ) (det : Bool) :
    CollisionDetector.checkCapture (some { c with targetDetected := det }) (some t) cd ↔
      t.active = true ∧
        Real.sqrt ((t.position.x - c.toAgent.position.x) * (t.position.x - c.toAgent.position.x) +
          (t.position.y - c.toAgent.position.y) * (t.position.y - c.toAgent.position.y)) < cd :=
  Iff.rfl

/-- C2: the escape check fires iff the target's position lies outside the
arena rectangle `[0, width] × [0, height]` expanded by the margin on all
four sides, i.e. outside `[-margin, width+margin] × [-margin, height+margin]`. -/
theorem hasEscaped_iff_outside_expanded_rect (t : Agent) (w h margin : ℝ) :
    Ligeirinho.hasEscaped t w h margin ↔
      ¬ (-margin ≤ t.position.x ∧ t.position.x ≤ w + margin ∧
         -margin ≤ t.position.y ∧ t.position.y ≤ h + margin) := by
  unfold Ligeirinho.hasEscaped
  constructor
  · rintro (h1 | h1 | h1 | h1) ⟨ha, hb, hc, hd⟩ <;> linarith
  · intro hn
    by_contra hno
    push_neg at hno
    obtain ⟨n1, n2, n3, n4⟩ := hno
    exact hn ⟨n1, n2, n3, n4⟩

/-- C8: normalizing the zero vector leaves it at (0,0), and dividing any
vector by the scalar zero is a no-op; both operations are guarded and
never divide by zero. -/
theorem normalize_zero_and_divide_zero :
    Vec2.normalize ⟨0, 0⟩ = (⟨0, 0⟩ : Vec2) ∧ ∀ v : Vec2, v.divide 0 = v := by
  constructor
  · exact Vec2.normalize_zero_vec
  · intro v
    unfold Vec2.divide
    simp

/-- C7: `limit` never increases the magnitude, leaves the vector unchanged
when its magnitude is already at most `m`, and is idempotent. -/
theorem limit_clamp_properties (v : Vec2) (m : ℝ) (hm : 0 < m) :
    (v.limit m).magnitude ≤ v.magnitude ∧
    (v.magnitude ≤ m → v.limit m = v) ∧
    (v.limit m).limit m = v.limit m := by
  refine ⟨Vec2.magnitude_limit_le v (le_of_lt hm), ?_, Vec2.limit_idem v (le_of_lt hm)⟩
  intro hle
  apply Vec2.limit_of_le
  rw [← v.magnitude_sq]
  nlinarith [v.magnitude_nonneg]

/-- Witness for C7 at the concrete vector (3,4) and bound 10. -/
theorem limit_clamp_properties_witness :
    ((⟨3, 4⟩ : Vec2).limit 10).magnitude ≤ (⟨3, 4⟩ : Vec2).magnitude ∧
    ((⟨3, 4⟩ : Vec2).magnitude ≤ 10 → (⟨3, 4⟩ : Vec2).limit 10 = ⟨3, 4⟩) ∧
    (((⟨3, 4⟩ : Vec2).limit 10).limit 10 = (⟨3, 4⟩ : Vec2).limit 10) :=
  limit_clamp_properties ⟨3, 4⟩ 10 (by norm_num)

/-- C6: the adaptive lookahead is monotonically non-decreasing in the
distance and always lies in the range [3, 20] (the input is clamped to
[0, 400] before the linear map). -/
theorem adaptiveLookahead_monotone_and_bounded :
    (∀ d1 d2 : ℝ, 0 ≤ d1 → d1 ≤ d2 →
      PredictiveStrategy.calculateAdaptiveLookahead d1 ≤
        PredictiveStrategy.calculateAdaptiveLookahead d2) ∧
    (∀ d : ℝ, 3 ≤ PredictiveStrategy.calculateAdaptiveLookahead d ∧
      PredictiveStrategy.calculateAdaptiveLookahead d ≤ 20) := by
  have hcl : ∀ d : ℝ, 0 ≤ MathUtils.clamp d 0 400 ∧ MathUtils.clamp d 0 400 ≤ 400 := by
    intro d
    unfold MathUtils.clamp
    exact ⟨le_min (le_max_right d 0) (by norm_num), min_le_right _ _⟩
  constructor
  · intro d1 d2 _ h
    unfold PredictiveStrategy.calculateAdaptiveLookahead MathUtils.map
    have hmono : MathUtils.clamp d1 0 400 ≤ MathUtils.clamp d2 0 400 :=
      min_le_min (max_le_max h le_rfl) le_rfl
    have h1 := hcl d1
    have h2 := hcl d2
    norm_num
    linarith
  · intro d
    obtain ⟨h0, h4⟩ := hcl d
    unfold PredictiveStrategy.calculateAdaptiveLookahead MathUtils.map
    norm_num
    constructor <;> linarith

/-- Witness for C6 at the concrete distances 0 and 100. -/
theorem adaptiveLookahead_witness :
    PredictiveStrategy.calculateAdaptiveLookahead 0 ≤
      PredictiveStrategy.calculateAdaptiveLookahead 100 ∧
    3 ≤ PredictiveStrategy.calculateAdaptiveLookahead 100 :=
  ⟨adaptiveLookahead_monotone_and_bounded.1 0 100 le_rfl (by norm_num),
   (adaptiveLookahead_monotone_and_bounded.2 100).1⟩

/-- C10: the chaser's own `attemptCapture` returns false whenever
`targetDetected` is false or the target reference is missing, however small
the distance; it reports a capture exactly when the target is detected,
present, and strictly closer than `captureDistance`. -/
theorem attemptCapture_requires_detection (c : Frajola) (cd : ℝ) :
    ((c.targetDetected = false ∨ c.target = none) → ¬ c.attemptCapture cd) ∧
    (c.attemptCapture cd ↔ c.targetDetected = true ∧
      ∃ t, c.target = some t ∧ c.toAgent.distanceTo t < cd) := by
  cases htar : c.target with
  | none =>
      constructor
      · intro _ hc
        rw [Frajola.attemptCapture, htar] at hc
        exact hc
      · rw [Frajola.attemptCapture, htar]
        simp [htar]
  | some t =>
      rw [Frajola.attemptCapture, htar]
      cases hdet : c.targetDetected with
      | false => simp [htar, hdet]
      | true => simp [htar, hdet]

/-- Witness for C10: a chaser sitting at distance 0 from its target but
with `targetDetected = false` does not capture. -/
theorem attemptCapture_requires_detection_witness :
    ¬ Frajola.attemptCapture
        { position := ⟨100, 100⟩, velocity := ⟨0, 0⟩, acceleration := ⟨0, 0⟩,
          maxSpeed := 9, maxForce := 0.5, mass := 1, active := true,
          targetDetected := false,
          target := some
            { position := ⟨100, 100⟩, velocity := ⟨8, 0⟩, acceleration := ⟨0, 0⟩,
              maxSpeed := 8, maxForce := 0.5, mass := 1, active := true } }
        60 :=
  (attemptCapture_requires_detection _ 60).1 (Or.inl rfl)

/-- C3 (amended): after a target update the velocity magnitude equals
`maxSpeed`, provided `maxSpeed` is positive and the velocity entering the
re-normalization (velocity + acceleration for an active target) is not the
zero vector.  `setMagnitude` on the zero vector leaves it at zero, so the
zero-velocity case is excluded. -/
theorem target_speed_after_update (t : Agent) (dt : ℝ)
    (hact : t.active = true) (hms : 0 < t.maxSpeed)
    (hv : t.velocity.add t.acceleration ≠ Vec2.zero) :
    ((Ligeirinho.update t dt).velocity).magnitude = t.maxSpeed := by
  have hup : Agent.update t dt =
      { t with
        velocity := (t.velocity.add t.acceleration).limit t.maxSpeed
        position := t.position.add
          (((t.velocity.add t.acceleration).limit t.maxSpeed).multiply dt)
        acceleration := t.acceleration.multiply 0 } := by
    unfold Agent.update
    rw [if_pos hact]
  unfold Ligeirinho.update
  rw [hup]
  show (((t.velocity.add t.acceleration).limit t.maxSpeed).setMagnitude t.maxSpeed).magnitude
    = t.maxSpeed
  rw [Vec2.magnitude_setMagnitude (Vec2.limit_ne_zero hv hms), abs_of_pos hms]

/-- Witness for C3 (amended) at a concrete active target moving at (3,4)
with maxSpeed 2. -/
theorem target_speed_after_update_witness :
    ((Ligeirinho.update
        { position := ⟨0, 0⟩, velocity := ⟨3, 4⟩, acceleration := ⟨0, 0⟩,
          maxSpeed := 2, maxForce := 0.5, mass := 1, active := true } 1).velocity).magnitude
      = 2 :=
  target_speed_after_update _ 1 rfl (by norm_num) (by
    intro hz
    have := congrArg Vec2.x hz
    simp [Vec2.add, Vec2.zero] at this)

/-- C3 counterexample: a target whose post-integration velocity is the zero
vector keeps magnitude 0 after the update, not its configured `maxSpeed` 8:
the claimed invariant fails as stated. -/
theorem target_speed_not_invariant :
    ((Ligeirinho.update
        { position := ⟨0, 0⟩, velocity := ⟨0, 0⟩, acceleration := ⟨0, 0⟩,
          maxSpeed := 8, maxForce := 0.5, mass := 1, active := true } 1).velocity).magnitude
      ≠ 8 := by
  have hvel : (Ligeirinho.update
      { position := ⟨0, 0⟩, velocity := ⟨0, 0⟩, acceleration := ⟨0, 0⟩,
        maxSpeed := 8, maxForce := 0.5, mass := 1, active := true } 1).velocity
      = ⟨0, 0⟩ := by
    unfold Ligeirinho.update Agent.update
    norm_num [Vec2.add, Vec2.limit, Vec2.setMagnitude, Vec2.normalize,
      Vec2.magnitudeSquared, Vec2.magnitude, Vec2.multiply, Vec2.divide]
  rw [hvel]
  have : (⟨0, 0⟩ : Vec2).magnitude = 0 := Vec2.magnitude_zero_vec
  rw [this]
  norm_num

/-- C5 (amended): Direct and Predictive return the zero force when the
target reference is absent or the strategy is deactivated; Patrol returns
the zero force when deactivated, but an active Patrol strategy with an
absent target falls through to its patrol behaviour (see the
counterexample, which produces a nonzero force there). -/
theorem strategy_zero_force_guards :
    (∀ (s : DirectStrategy) (c : Frajola) (tgt : Option Agent) (det : Bool),
        s.active = false → DirectStrategy.calculate s c tgt det = Vec2.zero) ∧
    (∀ (s : DirectStrategy) (c : Frajola) (det : Bool),
        DirectStrategy.calculate s c none det = Vec2.zero) ∧
    (∀ (s : PredictiveStrategy) (c : Frajola) (tgt : Option Agent) (det : Bool),
        s.active = false → PredictiveStrategy.calculate s c tgt det = Vec2.zero) ∧
    (∀ (s : PredictiveStrategy) (c : Frajola) (det : Bool),
        PredictiveStrategy.calculate s c none det = Vec2.zero) ∧
    (∀ (s : PatrolStrategy) (c : Frajola) (tgt : Option Agent) (det : Bool),
        s.active = false → (PatrolStrategy.calculate s c tgt det).1 = Vec2.zero) := by
  refine ⟨?_, ?_, ?_, ?_, ?_⟩
  · intro s c tgt det h
    cases tgt <;> simp [DirectStrategy.calculate, h]
  · intro s c det
    cases h : s.active <;> simp [DirectStrategy.calculate, h]
  · intro s c tgt det h
    cases tgt <;> simp [PredictiveStrategy.calculate, h]
  · intro s c det
    cases h : s.active <;> simp [PredictiveStrategy.calculate, h]
  · intro s c tgt det h
    simp [PatrolStrategy.calculate, h]

/-- Witness for C5 (amended): the guards evaluated at concrete deactivated
strategies and at a concrete chaser with a missing target. -/
theorem strategy_zero_force_guards_witness :
    DirectStrategy.calculate ⟨false⟩
      { position := ⟨700, 450⟩, velocity := ⟨0, 0⟩, acceleration := ⟨0, 0⟩,
        maxSpeed := 9, maxForce := 0.5, mass := 1, active := true,
        targetDetected := false, target := none } none true = Vec2.zero ∧
    PredictiveStrategy.calculate ⟨false, 10, true⟩
      { position := ⟨700, 450⟩, velocity := ⟨0, 0⟩, acceleration := ⟨0, 0⟩,
        maxSpeed := 9, maxForce := 0.5, mass := 1, active := true,
        targetDetected := false, target := none } none true = Vec2.zero ∧
    (PatrolStrategy.calculate
      { active := false, patrolSpeed := 0.5, patrolRadius := 100,
        angularSpeed := 0.05, state := PatrolPhase.patrol, patrolTime := 0,
        centerX := 700, centerY := 450 }
      { position := ⟨700, 450⟩, velocity := ⟨0, 0⟩, acceleration := ⟨0, 0⟩,
        maxSpeed := 9, maxForce := 0.5, mass := 1, active := true,
        targetDetected := false, target := none } none true).1 = Vec2.zero :=
  ⟨strategy_zero_force_guards.1 ⟨false⟩ _ none true rfl,
   strategy_zero_force_guards.2.2.1 ⟨false, 10, true⟩ _ none true rfl,
   strategy_zero_force_guards.2.2.2.2 _ _ none true rfl⟩

/-- C5 counterexample: an active Patrol strategy asked for a force with a
missing (null) target returns its patrol steering, here (1,0), not the
zero vector — so the claim fails for the Patrol variant. -/
theorem patrol_calculate_null_target_nonzero :
    (PatrolStrategy.calculate
        { active := true, patrolSpeed := 1/2, patrolRadius := 100,
          angularSpeed := 1/20, state := PatrolPhase.patrol, patrolTime := 0,
          centerX := 0, centerY := 0 }
        { position := ⟨0, 0⟩, velocity := ⟨0, 0⟩, acceleration := ⟨0, 0⟩,
          maxSpeed := 2, maxForce := 5, mass := 1, active := true,
          targetDetected := false, target := none }
        none false).1 ≠ Vec2.zero := by
  have hsqrt : Real.sqrt (10000 : ℝ) = 100 := by
    rw [show (10000 : ℝ) = 100 ^ 2 by norm_num]
    exact Real.sqrt_sq (by norm_num)
  have hres : (PatrolStrategy.calculate
      { active := true, patrolSpeed := 1/2, patrolRadius := 100,
        angularSpeed := 1/20, state := PatrolPhase.patrol, patrolTime := 0,
        centerX := 0, centerY := 0 }
      { position := ⟨0, 0⟩, velocity := ⟨0, 0⟩, acceleration := ⟨0, 0⟩,
        maxSpeed := 2, maxForce := 5, mass := 1, active := true,
        targetDetected := false, target := none }
      none false).1 = ⟨1, 0⟩ := by
    unfold PatrolStrategy.calculate PatrolStrategy.updateState
      PatrolStrategy.patrolBehavior
    norm_num [Vec2.subtract, Vec2.normalize, Vec2.magnitude, Vec2.divide,
      Vec2.multiply, Vec2.limit, Vec2.magnitudeSquared, Real.cos_zero,
      Real.sin_zero, hsqrt]
  rw [hres]
  intro hz
  have := congrArg Vec2.x hz
  simp [Vec2.zero] at this

/-- C4: evaluation of the restart sequence at a failing input.  The
simulation's strategy objects are built once (src/unnamed/part_001 lines
43-47) and the post-capture restart (`createAgents`; `setStrategy`;
`startAttempt`; clear the latch) never touches them: starting from a state
whose Patrol strategy has `patrolTime = 5` and phase `pursue`, the strategy
still has `patrolTime = 5` (not 0) and phase `pursue` (not `patrol`) when
the new attempt begins.  `resetPatrolTime` exists (Strategy.js lines
392-395) but is never invoked, so the reset claimed by the specification
does not happen. -/
theorem restart_does_not_reset_patrol :
    ((Simulation.handleCaptureRestart
        { ligeirinho :=
            { position := ⟨1380, 430⟩, velocity := ⟨8, 0⟩, acceleration := ⟨0, 0⟩,
              maxSpeed := 8, maxForce := 0.5, mass := 1, active := true }
          frajola :=
            { position := ⟨1350, 430⟩, velocity := ⟨0, 0⟩, acceleration := ⟨0, 0⟩,
              maxSpeed := 9, maxForce := 0.5, mass := 1, active := true,
              targetDetected := true, target := none }
          directStrategy := ⟨true⟩
          predictiveStrategy := ⟨true, 10, true⟩
          patrolStrategy :=
            { active := true, patrolSpeed := 0.5, patrolRadius := 100,
              angularSpeed := 0.05, state := PatrolPhase.pursue, patrolTime := 5,
              centerX := 700, centerY := 450 }
          currentStrategy := StrategyName.patrol
          captureInProgress := true
          escapeInProgress := false
          targetSpeed := 8
          chaserSpeed := 9 }
        { position := ⟨0, 100⟩, velocity := ⟨8, 0⟩ }).patrolStrategy.patrolTime ≠ 0) ∧
    ((Simulation.handleCaptureRestart
        { ligeirinho :=
            { position := ⟨1380, 430⟩, velocity := ⟨8, 0⟩, acceleration := ⟨0, 0⟩,
              maxSpeed := 8, maxForce := 0.5, mass := 1, active := true }
          frajola :=
            { position := ⟨1350, 430⟩, velocity := ⟨0, 0⟩, acceleration := ⟨0, 0⟩,
              maxSpeed := 9, maxForce := 0.5, mass := 1, active := true,
              targetDetected := true, target := none }
          directStrategy := ⟨true⟩
          predictiveStrategy := ⟨true, 10, true⟩
          patrolStrategy :=
            { active := true, patrolSpeed := 0.5, patrolRadius := 100,
              angularSpeed := 0.05, state := PatrolPhase.pursue, patrolTime := 5,
              centerX := 700, centerY := 450 }
          currentStrategy := StrategyName.patrol
          captureInProgress := true
          escapeInProgress := false
          targetSpeed := 8
          chaserSpeed := 9 }
        { position := ⟨0, 100⟩, velocity := ⟨8, 0⟩ }).patrolStrategy.state ≠ PatrolPhase.patrol) := by
  constructor
  · show (5 : ℝ) ≠ 0
    norm_num
  · show PatrolPhase.pursue ≠ PatrolPhase.patrol
    intro h
    exact PatrolPhase.noConfusion h

/-- C9: per frame at most one terminal outcome fires; the capture check
has priority (when it holds the frame resolves to `capture`, whatever the
escape condition), and the frame resolves to `escape` exactly when capture
did not fire and the target has escaped. -/
theorem frame_outcome_capture_priority (f : Frajola) (t : Agent)
    (cd w h margin : ℝ) :
    (CollisionDetector.checkCapture (some f) (some t) cd →
      Simulation.updateOutcome false false f t cd w h margin = FrameOutcome.capture) ∧
    (Simulation.updateOutcome false false f t cd w h margin = FrameOutcome.escape ↔
      ¬ CollisionDetector.checkCapture (some f) (some t) cd ∧
        Ligeirinho.hasEscaped t w h margin) ∧
    (∀ cip eip : Bool,
      ¬ (Simulation.updateOutcome cip eip f t cd w h margin = FrameOutcome.capture ∧
         Simulation.updateOutcome cip eip f t cd w h margin = FrameOutcome.escape)) := by
  classical
  refine ⟨?_, ?_, ?_⟩
  · intro hc
    unfold Simulation.updateOutcome
    simp [hc]
  · unfold Simulation.updateOutcome
    by_cases hc : CollisionDetector.checkCapture (some f) (some t) cd
    · simp [hc]
    · by_cases he : Ligeirinho.hasEscaped t w h margin
      · simp [hc, he]
      · simp [hc, he]
  · intro cip eip hboth
    obtain ⟨h1, h2⟩ := hboth
    rw [h1] at h2
    exact FrameOutcome.noConfusion h2

/-- Witness for C9 at a frame where the capture condition and the escape
condition both hold: the frame resolves to `capture`. -/
theorem frame_outcome_capture_priority_witness :
    Simulation.updateOutcome false false
      { position := ⟨2000, 450⟩, velocity := ⟨0, 0⟩, acceleration := ⟨0, 0⟩,
        maxSpeed := 9, maxForce := 0.5, mass := 1, active := true,
        targetDetected := true, target := none }
      { position := ⟨2000, 449⟩, velocity := ⟨8, 0⟩, acceleration := ⟨0, 0⟩,
        maxSpeed := 8, maxForce := 0.5, mass := 1, active := true }
      60 1400 900 100 = FrameOutcome.capture := by
  apply (frame_outcome_capture_priority _ _ 60 1400 900 100).1
  refine ⟨rfl, ?_⟩
  show Real.sqrt _ < 60
  norm_num
